import Mathlib

/-!
# Verification of `shared-resource-ipc` (Unix backend)

Shallow embedding of the Unix implementation of the shared-resource IPC
library: `src/unix/semaphore.rs` (named-semaphore mutex and counter),
`src/unix/shared_mem.rs` (POSIX shared-memory segment holding a
size-prefixed serialized payload) and `src/unix/unix.rs` (the composed
resource with `new`, `access`, `access_mut` and `Drop`).

Modelling conventions:
* System calls are modelled by explicit oracles (a `Bool` or `Option Int`
  telling whether the call succeeds, and with which `errno` it fails).
* Each operation is translated into a pure function that returns its
  result together with an event trace recording, in order, the primitive
  operations the Rust function invokes; ordering claims are statements
  about these traces.
* The serialization codec (`bincode`, an external collaborator) is
  abstracted as a `Codec` structure with `encode`, `decode` and
  `sizeOfVal` (the latter modelling Rust's `std::mem::size_of_val`,
  which the code uses during initialization).  Concrete codecs for
  `u64`, `Vec<u8>` and `Option<u64>` follow bincode v1's fixed-int
  default format.
* The metadata struct and the payload mapping are modelled as the
  disjoint regions the code's `MemoryMeta` abstraction presents
  (`size` field, payload byte list, plus the kernel object's length
  `objSize` set by `ftruncate`); page-level aliasing of the two `mmap`
  regions is an address-space effect below this embedding.
-/

namespace SharedResource

/-- `Error` from `src/error.rs` (`SemaphoreError`, `SharedMemoryError`,
`BincodeError`, `UnsupportedOS`); the opaque `bincode::Error` payload is
dropped. -/
inductive Error where
  | semaphoreError (errno : Int) (msg : String)
  | sharedMemoryError (errno : Int) (msg : String)
  | bincodeError
  | unsupportedOS
  deriving DecidableEq, Repr

/-- Modelled stand-in for libc `strerror` (an external collaborator): any
deterministic map from errno to a message. -/
def strerrorModel (e : Int) : String := "errno " ++ toString e

/-- `Error::sem_error()` from `src/error.rs`: captures the current errno and
its `strerror` message. -/
def Error.semError (errno : Int) : Error :=
  Error.semaphoreError errno (strerrorModel errno)

/-- `Error::shm_error()` from `src/error.rs`. -/
def Error.shmError (errno : Int) : Error :=
  Error.sharedMemoryError errno (strerrorModel errno)

/-- Linux `EAGAIN`. -/
def EAGAIN : Int := 11

namespace MutexSemaphore

/-- `MutexSemaphore::lock` (`src/unix/semaphore.rs:73`): builds a
`timespec` whose `tv_sec` is the current wall-clock second plus 5 and calls
`sem_timedwait` with that absolute deadline; on a negative return it fails
with `Error::sem_error()`, otherwise it returns unit.

`timedwait d` models `sem_timedwait` called with absolute deadline `d`:
`none` is success, `some e` is failure with errno `e` (system error or
`ETIMEDOUT`). -/
def lock (now : Nat) (timedwait : Nat → Option Int) : Except Error Unit :=
  let deadline := now + 5
  match timedwait deadline with
  | none => Except.ok ()
  | some e => Except.error (Error.semError e)

end MutexSemaphore

namespace CounterSemaphore

/-- `CounterSemaphore::decrement` (`src/unix/semaphore.rs:228`): calls
`sem_trywait`; `res` is its return value (`0` on success, `-1` on failure)
and `errno` the thread errno after the call.  The code tests
`res == EAGAIN` — the return value, not the errno — before deciding
between the no-op success branch and `Error::sem_error()`. -/
def decrement (res : Int) (errno : Int) : Except Error Unit :=
  if res < 0 then
    if res = EAGAIN then Except.ok ()
    else Except.error (Error.semError errno)
  else Except.ok ()

/-- What the spec intends for `decrement`: a failed `sem_trywait` whose
errno is `EAGAIN` (counter already zero) is a no-op success. -/
def decrementSpec (res : Int) (errno : Int) : Except Error Unit :=
  if res < 0 then
    if errno = EAGAIN then Except.ok ()
    else Except.error (Error.semError errno)
  else Except.ok ()

end CounterSemaphore

/-- Little-endian bytes of a 64-bit unsigned integer (bincode v1 fixed-int
encoding of `u64`). -/
def toLE8 (n : Nat) : List Nat :=
  [n % 256, n / 256 % 256, n / 256 ^ 2 % 256, n / 256 ^ 3 % 256,
   n / 256 ^ 4 % 256, n / 256 ^ 5 % 256, n / 256 ^ 6 % 256, n / 256 ^ 7 % 256]

/-- Read a little-endian unsigned integer from a byte list. -/
def fromLE (bs : List Nat) : Nat :=
  bs.foldr (fun b acc => b + 256 * acc) 0

/-- The external serialization codec (`bincode`) together with Rust's
`std::mem::size_of_val`, specialised to one payload type `T`:
`encode` is `bincode::serialize` (total for these types), `decode` is
`bincode::deserialize` (reads exactly the bytes it needs from the front,
`none` on failure), and `sizeOfVal v` is the in-memory byte size of `v`. -/
structure Codec (T : Type) where
  encode : T → List Nat
  decode : List Nat → Option T
  sizeOfVal : T → Nat

/-- bincode v1 codec for `u64`/`usize`: 8 bytes little-endian; in-memory
size 8. -/
def u64Codec : Codec Nat where
  encode n := toLE8 n
  decode bs := if bs.length < 8 then none else some (fromLE (bs.take 8))
  sizeOfVal _ := 8

/-- bincode v1 codec for `Vec<u8>`: a `u64` length prefix followed by the
elements; the in-memory size of the `Vec` header is 24 bytes
(pointer, capacity, length). -/
def vecU8Codec : Codec (List Nat) where
  encode xs := toLE8 xs.length ++ xs
  decode bs :=
    if bs.length < 8 then none
    else
      let n := fromLE (bs.take 8)
      let rest := bs.drop 8
      if rest.length < n then none else some (rest.take n)
  sizeOfVal _ := 24

/-- bincode v1 codec for `Option<u64>`: a one-byte tag (0 = `None`,
1 = `Some`) followed by the value; in-memory size 16. -/
def optU64Codec : Codec (Option Nat) where
  encode o :=
    match o with
    | none => [0]
    | some x => 1 :: toLE8 x
  decode bs :=
    match bs with
    | [] => none
    | t :: rest =>
      if t = 0 then some none
      else if t = 1 then
        if rest.length < 8 then none else some (some (fromLE (rest.take 8)))
      else none
  sizeOfVal _ := 16

namespace SharedMemory

/-- `SharedMemory::<T>::META_SIZE = size_of::<MemoryMeta>()`:
a `u64` plus a pointer on a 64-bit host. -/
def META_SIZE : Nat := 16

/-- The state of the shared-memory segment as one process sees it:
`objSize` is the kernel object's length (set by `ftruncate`), `size` is the
`MemoryMeta::size` field, and `payload` holds the bytes of the payload
mapping reachable from `MemoryMeta::data` (the slice of `size` bytes the
code reads and writes). -/
structure ShmState where
  objSize : Nat
  size : Nat
  payload : List Nat
  deriving DecidableEq, Repr

/-- Outcome of `SharedMemory::new` on the creator path. -/
inductive NewOutcome where
  | ok (st : ShmState)
  /-- The initialization copy loop ran past the end of the serialized
  vector (`initial_value[i]` with `i ≥ initial_value.len()`), a Rust
  index-out-of-bounds panic. -/
  | panicOOB
  deriving DecidableEq, Repr

/-- `SharedMemory::new` (`src/unix/shared_mem.rs:27`) on the branch where
this process wins the exclusive create (`memory_is_new = true`) and every
system call succeeds: `ftruncate` the object to `META_SIZE`; map the
metadata; set `metadata.size` to `std::mem::size_of_val(&initial_value)`;
map `metadata.size` bytes of payload; `bincode::serialize` the initial
value and copy it element-wise into the `metadata.size`-byte payload slice
(`raw_data[i] = initial_value[i]` for every `i < metadata.size`, a panic
when the serialized vector is shorter); finally store the payload address
into `metadata.data`. -/
def newCreator {T : Type} (c : Codec T) (v : T) : NewOutcome :=
  let size := c.sizeOfVal v
  let ser := c.encode v
  if size ≤ ser.length then
    NewOutcome.ok { objSize := META_SIZE, size := size, payload := ser.take size }
  else
    NewOutcome.panicOOB

/-- `SharedMemory::get` (`src/unix/shared_mem.rs:139`): view the
`metadata.size` bytes at `metadata.data` and `bincode::deserialize` them. -/
def get {T : Type} (c : Codec T) (st : ShmState) : Except Error T :=
  match c.decode st.payload with
  | some v => Except.ok v
  | none => Except.error Error.bincodeError

/-- Primitive steps taken by `SharedMemory::set` (and, for `ftruncate`, by
`SharedMemory::new`): the trace vocabulary for the rewrite path. -/
inductive ShmEvent where
  /-- `mremap(old_size, new_size, MREMAP_MAYMOVE)` on the payload
  mapping. -/
  | mremapCall (oldSize newSize : Nat)
  /-- `ftruncate` of the backing kernel object to the given length. -/
  | ftruncateCall (len : Nat)
  /-- store of the (possibly moved) payload address into
  `metadata.data`. -/
  | writeDataPtr
  /-- store of the given value into `metadata.size`. -/
  | writeSize (n : Nat)
  /-- overwrite of the first `n` payload bytes with the new
  serialization. -/
  | writePayload (n : Nat)
  deriving DecidableEq, Repr

/-- The creator-path trace of `SharedMemory::new`: the only `ftruncate`
the segment ever performs, to `META_SIZE`, followed by the metadata-size
store and the initial payload copy. -/
def newCreatorTrace {T : Type} (c : Codec T) (v : T) : List ShmEvent :=
  [ShmEvent.ftruncateCall META_SIZE, ShmEvent.writeSize (c.sizeOfVal v),
   ShmEvent.writePayload (c.sizeOfVal v)]

/-- `SharedMemory::set` (`src/unix/shared_mem.rs:148`): serialize the new
value to `n` bytes; if `n` differs from `metadata.size`, `mremap` the
payload mapping to `n` bytes (`MREMAP_MAYMOVE`), store the new address in
`metadata.data` and `n` in `metadata.size`; then overwrite the first `n`
payload bytes with the serialization.  `mremapResult = some errno` models
an `mremap` failure, which is returned as `Error::shm_error()` with the
metadata untouched; no call ever resizes the backing kernel object. -/
def set {T : Type} (c : Codec T) (st : ShmState) (v : T)
    (mremapResult : Option Int) : Except Error ShmState × List ShmEvent :=
  let ser := c.encode v
  let n := ser.length
  if st.size = n then
    (Except.ok { st with payload := ser }, [ShmEvent.writePayload n])
  else
    match mremapResult with
    | some errno =>
      (Except.error (Error.shmError errno), [ShmEvent.mremapCall st.size n])
    | none =>
      (Except.ok { objSize := st.objSize, size := n, payload := ser },
       [ShmEvent.mremapCall st.size n, ShmEvent.writeDataPtr,
        ShmEvent.writeSize n, ShmEvent.writePayload n])

end SharedMemory

namespace UnixSharedResource

/-- Primitive operations invoked by `UnixSharedResource::new`, `access`,
`access_mut` and `Drop` (`src/unix/unix.rs`), in the order the code calls
them; an event records that the call was made, whether or not it
succeeded. -/
inductive Ev where
  | mutexOpen
  | mutexLock
  | mutexUnlock
  | mutexClose
  | mutexUnlink
  | counterOpen
  | counterInc
  | counterDec
  | counterGetValue
  | counterClose
  | counterUnlink
  | shmCreate
  | shmGet
  | shmSet
  | shmClose
  | shmUnlink
  deriving DecidableEq, Repr

/-- Environment of one `access` / `access_mut` call: whether the mutex
operations succeed (`semErrno` is the errno they fail with), the current
shared-memory state, and the `mremap` oracle consumed by
`SharedMemory::set`. -/
structure AccessEnv where
  lockOk : Bool
  unlockOk : Bool
  semErrno : Int
  st : SharedMemory.ShmState
  mremapResult : Option Int

/-- `UnixSharedResource::access` (`src/unix/unix.rs:91`): lock the mutex,
`get` (deserialize) the value, run the caller's accessor on an immutable
borrow of that fresh value, unlock, and return the accessor's result; each
`?` propagates the error immediately.  Returns the call's result, the
shared-memory state after the call, and the trace of primitive calls. -/
def access {T R : Type} (c : Codec T) (env : AccessEnv) (accessor : T → R) :
    Except Error R × SharedMemory.ShmState × List Ev :=
  if ¬env.lockOk then
    (Except.error (Error.semError env.semErrno), env.st, [Ev.mutexLock])
  else
    match SharedMemory.get c env.st with
    | Except.error e => (Except.error e, env.st, [Ev.mutexLock, Ev.shmGet])
    | Except.ok data =>
      let res := accessor data
      if ¬env.unlockOk then
        (Except.error (Error.semError env.semErrno), env.st,
         [Ev.mutexLock, Ev.shmGet, Ev.mutexUnlock])
      else
        (Except.ok res, env.st, [Ev.mutexLock, Ev.shmGet, Ev.mutexUnlock])

/-- `UnixSharedResource::access_mut` (`src/unix/unix.rs:99`): lock, `get`,
run the accessor on a mutable borrow (modelled as returning the mutated
value together with the accessor's result), `set` the mutated value back,
unlock, return the result; each `?` propagates the error immediately. -/
def access_mut {T D : Type} (c : Codec T) (env : AccessEnv)
    (accessor : T → T × D) :
    Except Error D × SharedMemory.ShmState × List Ev :=
  if ¬env.lockOk then
    (Except.error (Error.semError env.semErrno), env.st, [Ev.mutexLock])
  else
    match SharedMemory.get c env.st with
    | Except.error e => (Except.error e, env.st, [Ev.mutexLock, Ev.shmGet])
    | Except.ok data =>
      let mutated := accessor data
      match SharedMemory.set c env.st mutated.1 env.mremapResult with
      | (Except.error e, _) =>
        (Except.error e, env.st, [Ev.mutexLock, Ev.shmGet, Ev.shmSet])
      | (Except.ok st, _) =>
        if ¬env.unlockOk then
          (Except.error (Error.semError env.semErrno), st,
           [Ev.mutexLock, Ev.shmGet, Ev.shmSet, Ev.mutexUnlock])
        else
          (Except.ok mutated.2, st,
           [Ev.mutexLock, Ev.shmGet, Ev.shmSet, Ev.mutexUnlock])

/-- Success oracles for the six steps of `UnixSharedResource::new`, in
program order. -/
structure OpenEnv where
  mutexNewOk : Bool
  counterNewOk : Bool
  incOk : Bool
  lockOk : Bool
  shmNewOk : Bool
  unlockOk : Bool

/-- `UnixSharedResource::new` (`src/unix/unix.rs:19`): open the mutex,
open the counter, increment the counter, lock the mutex, create-or-attach
the shared memory inside the critical section, unlock, and return the
composed handle; each `?` propagates the error immediately.  Returns
whether the call returned `Ok` together with the trace of primitive
calls. -/
def openRun (e : OpenEnv) : Bool × List Ev :=
  if ¬e.mutexNewOk then (false, [Ev.mutexOpen])
  else if ¬e.counterNewOk then (false, [Ev.mutexOpen, Ev.counterOpen])
  else if ¬e.incOk then (false, [Ev.mutexOpen, Ev.counterOpen, Ev.counterInc])
  else if ¬e.lockOk then
    (false, [Ev.mutexOpen, Ev.counterOpen, Ev.counterInc, Ev.mutexLock])
  else if ¬e.shmNewOk then
    (false, [Ev.mutexOpen, Ev.counterOpen, Ev.counterInc, Ev.mutexLock,
             Ev.shmCreate])
  else if ¬e.unlockOk then
    (false, [Ev.mutexOpen, Ev.counterOpen, Ev.counterInc, Ev.mutexLock,
             Ev.shmCreate, Ev.mutexUnlock])
  else
    (true, [Ev.mutexOpen, Ev.counterOpen, Ev.counterInc, Ev.mutexLock,
            Ev.shmCreate, Ev.mutexUnlock])

/-- `impl Drop for UnixSharedResource` (`src/unix/unix.rs:40`), on the
executions in which every `expect` succeeds (a failing `expect` aborts the
process): lock the mutex, decrement the counter, read the counter's value
`v`; if `v = 0` this holder is the final process and closes+unlinks the
counter, the shared memory, then the mutex (without ever unlocking it);
otherwise it closes the counter, closes the shared memory, unlocks the
mutex and closes it. -/
def dropRun (v : Int) : List Ev :=
  [Ev.mutexLock, Ev.counterDec, Ev.counterGetValue] ++
    (if v = 0 then
      [Ev.counterClose, Ev.counterUnlink, Ev.shmClose, Ev.shmUnlink,
       Ev.mutexClose, Ev.mutexUnlink]
    else
      [Ev.counterClose, Ev.shmClose, Ev.mutexUnlock, Ev.mutexClose])

end UnixSharedResource

/-- Result of opening a fresh resource as its creator and immediately
reading it back. -/
inductive RunResult (T : Type) where
  | ok (t : T)
  | err (e : Error)
  | panic
  deriving DecidableEq, Repr

/-- Open a fresh resource name with initial value `v` (creator path of
`SharedMemory::new`, all system calls succeeding) and then perform a
`read` with the identity accessor (`access (fun data => data.clone())`). -/
def openThenRead {T : Type} (c : Codec T) (v : T) : RunResult T :=
  match SharedMemory.newCreator c v with
  | SharedMemory.NewOutcome.panicOOB => RunResult.panic
  | SharedMemory.NewOutcome.ok st =>
    match (UnixSharedResource.access c
        { lockOk := true, unlockOk := true, semErrno := 0, st := st,
          mremapResult := none } (fun data => data)).1 with
    | Except.ok t => RunResult.ok t
    | Except.error e => RunResult.err e

/-- **C8.** `MutexSemaphore::lock` waits with the absolute deadline
`now + 5` seconds: its outcome is a function of the timed wait at exactly
that deadline; it returns unit iff the wait succeeds, and returns
`SemaphoreError` carrying the failure's errno and `strerror` message iff
the wait fails. -/
theorem lock_deadline_and_errors (now : Nat) (f g : Nat → Option Int) :
    (f (now + 5) = g (now + 5) → MutexSemaphore.lock now f = MutexSemaphore.lock now g)
    ∧ (MutexSemaphore.lock now f = Except.ok () ↔ f (now + 5) = none)
    ∧ (∀ e : Int, f (now + 5) = some e →
        MutexSemaphore.lock now f =
          Except.error (Error.semaphoreError e (strerrorModel e))) := by
  refine ⟨fun h => ?_, ?_, fun e he => ?_⟩
  · simp [MutexSemaphore.lock, h]
  · unfold MutexSemaphore.lock
    cases hf : f (now + 5) <;> simp [hf, Error.semError]
  · simp [MutexSemaphore.lock, he, Error.semError]

/-- Witness for C8: at wall-clock second 100 with a wait oracle that times
out with errno 110 at deadline 105, `lock` returns the corresponding
`SemaphoreError`. -/
theorem lock_deadline_and_errors_witness :
    MutexSemaphore.lock 100 (fun _ => some 110) =
      Except.error (Error.semaphoreError 110 (strerrorModel 110)) :=
  (lock_deadline_and_errors 100 (fun _ => some 110) (fun _ => some 110)).2.2 110 rfl

/-- **C4** (code bug exhibit). When the counter is already zero,
`sem_trywait` returns `-1` with errno `EAGAIN`; `decrement` then returns a
`SemaphoreError` rather than the no-op success the spec states, because the
code compares the return value `-1` (not the errno) against `EAGAIN = 11`.
The spec-intended comparison (`decrementSpec`) returns success there. -/
theorem decrement_errors_on_eagain :
    CounterSemaphore.decrement (-1) EAGAIN =
      Except.error (Error.semaphoreError EAGAIN (strerrorModel EAGAIN))
    ∧ CounterSemaphore.decrementSpec (-1) EAGAIN = Except.ok () := by
  constructor
  · simp [CounterSemaphore.decrement, EAGAIN, Error.semError]
  · simp [CounterSemaphore.decrementSpec]

/-- **C2** (code bug exhibit). `SharedMemory::new` on the creator path does
not set `metadata.size` to the serialized length: for a 100-element
`Vec<u8>` the bincode serialization is 108 bytes, yet the code stores
`size_of_val` of the `Vec` header — 24 — into `metadata.size` and copies
only 24 serialized bytes; and for `None : Option<u64>` (`size_of_val` 16,
serialized length 1) the initialization copy indexes the serialized vector
out of bounds and panics. -/
theorem newCreator_size_is_size_of_val_not_encode_length :
    (vecU8Codec.encode (List.replicate 100 7)).length = 108
    ∧ SharedMemory.newCreator vecU8Codec (List.replicate 100 7) =
        SharedMemory.NewOutcome.ok
          { objSize := SharedMemory.META_SIZE, size := 24,
            payload := toLE8 100 ++ List.replicate 16 7 }
    ∧ SharedMemory.newCreator optU64Codec none =
        SharedMemory.NewOutcome.panicOOB := by
  refine ⟨by decide, ?_, by decide⟩
  decide

/-- **C3** (code bug exhibit). The round-trip property fails: opening a
fresh resource as creator with a 100-element `Vec<u8>` and reading it back
with the identity accessor yields a bincode deserialization error, not the
initial value, because creation stored a truncated 24-byte image whose
length prefix promises 100 element bytes. -/
theorem openThenRead_fails_on_vec :
    openThenRead vecU8Codec (List.replicate 100 7) =
      RunResult.err Error.bincodeError := by
  decide

/-- **C5** (counterexample to the claim as stated). A rewrite whose new
serialized length (32) differs from `metadata.size` (8) does not grow or
shrink the backing kernel object: `set` performs no `ftruncate` — its
trace is exactly `mremap`, data-pointer store, size store, payload write —
and the object length stays at the 16 bytes the creator truncated it to,
smaller than the 32-byte payload now recorded. -/
theorem set_does_not_grow_backing_object_cx :
    SharedMemory.set vecU8Codec
        { objSize := 16, size := 8, payload := toLE8 1000 }
        (List.replicate 24 5) none =
      (Except.ok
        { objSize := 16, size := 32, payload := toLE8 24 ++ List.replicate 24 5 },
       [SharedMemory.ShmEvent.mremapCall 8 32, SharedMemory.ShmEvent.writeDataPtr,
        SharedMemory.ShmEvent.writeSize 32, SharedMemory.ShmEvent.writePayload 32])
    ∧ SharedMemory.ShmEvent.ftruncateCall 32 ∉
        (SharedMemory.set vecU8Codec
          { objSize := 16, size := 8, payload := toLE8 1000 }
          (List.replicate 24 5) none).2
    ∧ (16 : Nat) < 32 := by
  refine ⟨rfl, by decide, by decide⟩

/-- **C5** (amended). `SharedMemory::set` with new serialized length `n`:
when `n = metadata.size` it only overwrites the first `n` payload bytes;
when `n ≠ metadata.size` and `mremap` succeeds it remaps the payload
mapping to `n` bytes, stores the new payload address, stores `n` into
`metadata.size`, then overwrites the first `n` payload bytes — leaving the
backing kernel object's length unchanged; when `n ≠ metadata.size` and
`mremap` fails it returns `Error::shm_error()` with the state untouched;
and no execution of `set` ever issues an `ftruncate`. -/
theorem set_remap_characterization {T : Type} (c : Codec T)
    (st : SharedMemory.ShmState) (v : T) (mr : Option Int) :
    (st.size = (c.encode v).length →
      SharedMemory.set c st v mr =
        (Except.ok { st with payload := c.encode v },
         [SharedMemory.ShmEvent.writePayload (c.encode v).length]))
    ∧ (st.size ≠ (c.encode v).length →
        SharedMemory.set c st v none =
          (Except.ok
            { objSize := st.objSize, size := (c.encode v).length,
              payload := c.encode v },
           [SharedMemory.ShmEvent.mremapCall st.size (c.encode v).length,
            SharedMemory.ShmEvent.writeDataPtr,
            SharedMemory.ShmEvent.writeSize (c.encode v).length,
            SharedMemory.ShmEvent.writePayload (c.encode v).length]))
    ∧ (∀ e : Int, st.size ≠ (c.encode v).length → mr = some e →
        SharedMemory.set c st v mr =
          (Except.error (Error.shmError e),
           [SharedMemory.ShmEvent.mremapCall st.size (c.encode v).length]))
    ∧ (∀ l : Nat, SharedMemory.ShmEvent.ftruncateCall l ∉
        (SharedMemory.set c st v mr).2) := by
  refine ⟨fun h => ?_, fun h => ?_, fun e h hmr => ?_, fun l => ?_⟩
  · simp [SharedMemory.set, h]
  · simp [SharedMemory.set, h]
  · simp [SharedMemory.set, h, hmr]
  · unfold SharedMemory.set
    by_cases h : st.size = (c.encode v).length
    · simp [h]
    · cases mr <;> simp [h]

/-- Witness for the amended C5: concrete equal-size and size-changing
rewrites of a `u64` payload. -/
theorem set_remap_characterization_witness :
    SharedMemory.set u64Codec { objSize := 16, size := 8, payload := toLE8 3 }
        (5 : Nat) none =
      (Except.ok { objSize := 16, size := 8, payload := toLE8 5 },
       [SharedMemory.ShmEvent.writePayload 8])
    ∧ SharedMemory.set u64Codec
        { objSize := 16, size := 9, payload := toLE8 3 ++ [0] } (5 : Nat) none =
      (Except.ok { objSize := 16, size := 8, payload := toLE8 5 },
       [SharedMemory.ShmEvent.mremapCall 9 8, SharedMemory.ShmEvent.writeDataPtr,
        SharedMemory.ShmEvent.writeSize 8, SharedMemory.ShmEvent.writePayload 8])
    ∧ SharedMemory.set u64Codec
        { objSize := 16, size := 9, payload := toLE8 3 ++ [0] } (5 : Nat)
        (some 12) =
      (Except.error (Error.shmError 12), [SharedMemory.ShmEvent.mremapCall 9 8]) :=
  ⟨(set_remap_characterization u64Codec
      { objSize := 16, size := 8, payload := toLE8 3 } 5 none).1 (by decide),
   (set_remap_characterization u64Codec
      { objSize := 16, size := 9, payload := toLE8 3 ++ [0] } 5 none).2.1
      (by decide),
   (set_remap_characterization u64Codec
      { objSize := 16, size := 9, payload := toLE8 3 ++ [0] } 5
      (some 12)).2.2.1 12 (by decide) rfl⟩

/-- **C1** (counterexample to the claim as stated). A `mutate` in which the
mutex is locked successfully, the value deserializes, and the write-back
`set` fails (here: `mremap` fails with errno 12 while changing the size
from 9 to 8) surfaces the error with a trace `lock, get, set` that contains
no `unlock`: the mutex is not released before the error is surfaced. -/
theorem access_mut_set_failure_leaves_locked_cx :
    UnixSharedResource.access_mut u64Codec
        { lockOk := true, unlockOk := true, semErrno := 0,
          st := { objSize := 16, size := 9, payload := toLE8 0 ++ [0] },
          mremapResult := some 12 }
        (fun x => (x + 1, x)) =
      (Except.error (Error.sharedMemoryError 12 (strerrorModel 12)),
       { objSize := 16, size := 9, payload := toLE8 0 ++ [0] },
       [UnixSharedResource.Ev.mutexLock, UnixSharedResource.Ev.shmGet,
        UnixSharedResource.Ev.shmSet])
    ∧ UnixSharedResource.Ev.mutexUnlock ∉
        (UnixSharedResource.access_mut u64Codec
          { lockOk := true, unlockOk := true, semErrno := 0,
            st := { objSize := 16, size := 9, payload := toLE8 0 ++ [0] },
            mremapResult := some 12 }
          (fun x => (x + 1, x))).2.2 := by
  refine ⟨rfl, by decide⟩

/-- **C1** (amended). In every `access_mut` call where the mutex lock
succeeds, the value deserializes, and `SharedMemory::set` returns an error,
the error is surfaced to the caller with the shared state as it was and
with a trace `lock, get, set` containing no `unlock`: the mutex remains
held by this process. -/
theorem access_mut_set_failure_no_unlock {T D : Type} (c : Codec T)
    (env : UnixSharedResource.AccessEnv) (accessor : T → T × D)
    (data : T) (e : Error)
    (hlock : env.lockOk = true)
    (hget : SharedMemory.get c env.st = Except.ok data)
    (hset : (SharedMemory.set c env.st (accessor data).1 env.mremapResult).1 =
      Except.error e) :
    UnixSharedResource.access_mut c env accessor =
      (Except.error e, env.st,
       [UnixSharedResource.Ev.mutexLock, UnixSharedResource.Ev.shmGet,
        UnixSharedResource.Ev.shmSet])
    ∧ UnixSharedResource.Ev.mutexUnlock ∉
        (UnixSharedResource.access_mut c env accessor).2.2 := by
  have hp : SharedMemory.set c env.st (accessor data).1 env.mremapResult =
      (Except.error e,
       (SharedMemory.set c env.st (accessor data).1 env.mremapResult).2) := by
    rw [← hset]
  constructor
  · unfold UnixSharedResource.access_mut
    rw [hget]
    simp only [hlock, not_true_eq_false, if_false]
    rw [hp]
  · unfold UnixSharedResource.access_mut
    rw [hget]
    simp only [hlock, not_true_eq_false, if_false]
    rw [hp]
    simp

/-- Witness for the amended C1 at the concrete failing `mremap`
environment. -/
theorem access_mut_set_failure_no_unlock_witness :
    UnixSharedResource.access_mut u64Codec
        { lockOk := true, unlockOk := true, semErrno := 0,
          st := { objSize := 16, size := 9, payload := toLE8 7 ++ [0] },
          mremapResult := some 22 }
        (fun x => (x, x)) =
      (Except.error (Error.sharedMemoryError 22 (strerrorModel 22)),
       { objSize := 16, size := 9, payload := toLE8 7 ++ [0] },
       [UnixSharedResource.Ev.mutexLock, UnixSharedResource.Ev.shmGet,
        UnixSharedResource.Ev.shmSet])
    ∧ UnixSharedResource.Ev.mutexUnlock ∉
        (UnixSharedResource.access_mut u64Codec
          { lockOk := true, unlockOk := true, semErrno := 0,
            st := { objSize := 16, size := 9, payload := toLE8 7 ++ [0] },
            mremapResult := some 22 }
          (fun x => (x, x))).2.2 :=
  access_mut_set_failure_no_unlock u64Codec
    { lockOk := true, unlockOk := true, semErrno := 0,
      st := { objSize := 16, size := 9, payload := toLE8 7 ++ [0] },
      mremapResult := some 22 }
    (fun x => (x, x)) 7 (Error.sharedMemoryError 22 (strerrorModel 22))
    rfl rfl rfl

/-- **C9.** `access` never modifies the shared state: whatever the
environment and accessor, the shared-memory state after the call (payload
bytes, `metadata.size`, object length) is exactly the state before; and on
the successful path the call returns precisely the accessor's result on the
deserialized snapshot — the snapshot itself is discarded. -/
theorem access_preserves_state {T R : Type} (c : Codec T)
    (env : UnixSharedResource.AccessEnv) (accessor : T → R) :
    (UnixSharedResource.access c env accessor).2.1 = env.st
    ∧ (∀ v : T, env.lockOk = true → env.unlockOk = true →
        SharedMemory.get c env.st = Except.ok v →
        UnixSharedResource.access c env accessor =
          (Except.ok (accessor v), env.st,
           [UnixSharedResource.Ev.mutexLock, UnixSharedResource.Ev.shmGet,
            UnixSharedResource.Ev.mutexUnlock])) := by
  constructor
  · unfold UnixSharedResource.access
    cases hl : env.lockOk
    · simp
    · simp only [hl, not_true_eq_false, if_false]
      cases hg : SharedMemory.get c env.st
      · simp
      · cases hu : env.unlockOk <;> simp [hu]
  · intro v hlock hunlock hget
    unfold UnixSharedResource.access
    rw [hget]
    simp [hlock, hunlock]

/-- Witness for C9: reading a `u64` payload holding 42 with accessor
`x + 1` returns 43 and leaves the state unchanged. -/
theorem access_preserves_state_witness :
    UnixSharedResource.access u64Codec
        { lockOk := true, unlockOk := true, semErrno := 0,
          st := { objSize := 16, size := 8, payload := toLE8 42 },
          mremapResult := none }
        (fun x => x + 1) =
      (Except.ok 43, { objSize := 16, size := 8, payload := toLE8 42 },
       [UnixSharedResource.Ev.mutexLock, UnixSharedResource.Ev.shmGet,
        UnixSharedResource.Ev.mutexUnlock]) :=
  (access_preserves_state u64Codec
      { lockOk := true, unlockOk := true, semErrno := 0,
        st := { objSize := 16, size := 8, payload := toLE8 42 },
        mremapResult := none }
      (fun x => x + 1)).2 42 rfl rfl rfl

/-- **C10.** In both `access` and `access_mut`, when the mutex lock
succeeds and `SharedMemory::get` fails, the call returns that error with a
trace `lock, get` that contains no `unlock`: the inter-process mutex is
left held by this process. -/
theorem get_failure_leaves_mutex_held {T R D : Type} (c : Codec T)
    (env : UnixSharedResource.AccessEnv) (accessor : T → R)
    (accessorM : T → T × D) (e : Error)
    (hlock : env.lockOk = true)
    (hget : SharedMemory.get c env.st = Except.error e) :
    UnixSharedResource.access c env accessor =
      (Except.error e, env.st,
       [UnixSharedResource.Ev.mutexLock, UnixSharedResource.Ev.shmGet])
    ∧ UnixSharedResource.Ev.mutexUnlock ∉
        (UnixSharedResource.access c env accessor).2.2
    ∧ UnixSharedResource.access_mut c env accessorM =
      (Except.error e, env.st,
       [UnixSharedResource.Ev.mutexLock, UnixSharedResource.Ev.shmGet])
    ∧ UnixSharedResource.Ev.mutexUnlock ∉
        (UnixSharedResource.access_mut c env accessorM).2.2 := by
  have ha : UnixSharedResource.access c env accessor =
      (Except.error e, env.st,
       [UnixSharedResource.Ev.mutexLock, UnixSharedResource.Ev.shmGet]) := by
    unfold UnixSharedResource.access
    rw [hget]
    simp [hlock]
  have hm : UnixSharedResource.access_mut c env accessorM =
      (Except.error e, env.st,
       [UnixSharedResource.Ev.mutexLock, UnixSharedResource.Ev.shmGet]) := by
    unfold UnixSharedResource.access_mut
    rw [hget]
    simp [hlock]
  refine ⟨ha, ?_, hm, ?_⟩
  · rw [ha]; simp
  · rw [hm]; simp

/-- Witness for C10: a 3-byte payload does not deserialize as a `u64`, so
both reads and mutates surface the bincode error while the trace shows no
unlock. -/
theorem get_failure_leaves_mutex_held_witness :
    UnixSharedResource.access u64Codec
        { lockOk := true, unlockOk := true, semErrno := 0,
          st := { objSize := 16, size := 3, payload := [1, 2, 3] },
          mremapResult := none }
        (fun (x : Nat) => x) =
      (Except.error Error.bincodeError,
       { objSize := 16, size := 3, payload := [1, 2, 3] },
       [UnixSharedResource.Ev.mutexLock, UnixSharedResource.Ev.shmGet])
    ∧ UnixSharedResource.Ev.mutexUnlock ∉
        (UnixSharedResource.access u64Codec
          { lockOk := true, unlockOk := true, semErrno := 0,
            st := { objSize := 16, size := 3, payload := [1, 2, 3] },
            mremapResult := none }
          (fun (x : Nat) => x)).2.2
    ∧ UnixSharedResource.access_mut u64Codec
        { lockOk := true, unlockOk := true, semErrno := 0,
          st := { objSize := 16, size := 3, payload := [1, 2, 3] },
          mremapResult := none }
        (fun (x : Nat) => (x, x)) =
      (Except.error Error.bincodeError,
       { objSize := 16, size := 3, payload := [1, 2, 3] },
       [UnixSharedResource.Ev.mutexLock, UnixSharedResource.Ev.shmGet])
    ∧ UnixSharedResource.Ev.mutexUnlock ∉
        (UnixSharedResource.access_mut u64Codec
          { lockOk := true, unlockOk := true, semErrno := 0,
            st := { objSize := 16, size := 3, payload := [1, 2, 3] },
            mremapResult := none }
          (fun (x : Nat) => (x, x))).2.2 :=
  get_failure_leaves_mutex_held u64Codec
    { lockOk := true, unlockOk := true, semErrno := 0,
      st := { objSize := 16, size := 3, payload := [1, 2, 3] },
      mremapResult := none }
    (fun x => x) (fun x => (x, x)) Error.bincodeError rfl rfl

/-- **C6.** In the drop sequence, unlink events occur exactly when the
counter reads zero after this holder's decrement; the final holder
closes+unlinks the counter, then the shared memory, then the mutex —
without ever unlocking the mutex — while every other holder closes the
counter and shared memory, unlocks the mutex, closes it, and unlinks
nothing. -/
theorem drop_unlink_iff_final (v : Int) :
    ((UnixSharedResource.Ev.counterUnlink ∈ UnixSharedResource.dropRun v
      ∨ UnixSharedResource.Ev.shmUnlink ∈ UnixSharedResource.dropRun v
      ∨ UnixSharedResource.Ev.mutexUnlink ∈ UnixSharedResource.dropRun v)
      ↔ v = 0)
    ∧ (v = 0 →
        UnixSharedResource.dropRun v =
          [UnixSharedResource.Ev.mutexLock, UnixSharedResource.Ev.counterDec,
           UnixSharedResource.Ev.counterGetValue,
           UnixSharedResource.Ev.counterClose,
           UnixSharedResource.Ev.counterUnlink, UnixSharedResource.Ev.shmClose,
           UnixSharedResource.Ev.shmUnlink, UnixSharedResource.Ev.mutexClose,
           UnixSharedResource.Ev.mutexUnlink]
        ∧ UnixSharedResource.Ev.mutexUnlock ∉ UnixSharedResource.dropRun v)
    ∧ (v ≠ 0 →
        UnixSharedResource.dropRun v =
          [UnixSharedResource.Ev.mutexLock, UnixSharedResource.Ev.counterDec,
           UnixSharedResource.Ev.counterGetValue,
           UnixSharedResource.Ev.counterClose, UnixSharedResource.Ev.shmClose,
           UnixSharedResource.Ev.mutexUnlock,
           UnixSharedResource.Ev.mutexClose]) := by
  by_cases h : v = 0 <;>
    simp [UnixSharedResource.dropRun, h]

/-- Witness for C6: the final holder (counter 0) and a non-final holder
(counter 1). -/
theorem drop_unlink_iff_final_witness :
    (UnixSharedResource.dropRun 0 =
        [UnixSharedResource.Ev.mutexLock, UnixSharedResource.Ev.counterDec,
         UnixSharedResource.Ev.counterGetValue,
         UnixSharedResource.Ev.counterClose,
         UnixSharedResource.Ev.counterUnlink, UnixSharedResource.Ev.shmClose,
         UnixSharedResource.Ev.shmUnlink, UnixSharedResource.Ev.mutexClose,
         UnixSharedResource.Ev.mutexUnlink]
      ∧ UnixSharedResource.Ev.mutexUnlock ∉ UnixSharedResource.dropRun 0)
    ∧ UnixSharedResource.dropRun 1 =
        [UnixSharedResource.Ev.mutexLock, UnixSharedResource.Ev.counterDec,
         UnixSharedResource.Ev.counterGetValue,
         UnixSharedResource.Ev.counterClose, UnixSharedResource.Ev.shmClose,
         UnixSharedResource.Ev.mutexUnlock,
         UnixSharedResource.Ev.mutexClose] :=
  ⟨(drop_unlink_iff_final 0).2.1 rfl, (drop_unlink_iff_final 1).2.2 (by decide)⟩

/-- **C7.** In every execution of `UnixSharedResource::new`, whatever
subset of the six steps succeeds: the counter increment occurs strictly
before any mutex lock (so the mutex is never locked before the counter was
incremented), the shared-memory create-or-attach occurs strictly between
the lock and any unlock (so it runs while the mutex is held), and a call
that returns the composed handle has unlocked the mutex as its last
primitive operation before returning. -/
theorem open_counter_before_lock :
    ∀ a b c d e f : Bool,
      (UnixSharedResource.Ev.mutexLock ∈
          (UnixSharedResource.openRun ⟨a, b, c, d, e, f⟩).2 →
        UnixSharedResource.Ev.counterInc ∈
            (UnixSharedResource.openRun ⟨a, b, c, d, e, f⟩).2
          ∧ (UnixSharedResource.openRun ⟨a, b, c, d, e, f⟩).2.indexOf
              UnixSharedResource.Ev.counterInc <
            (UnixSharedResource.openRun ⟨a, b, c, d, e, f⟩).2.indexOf
              UnixSharedResource.Ev.mutexLock)
      ∧ (UnixSharedResource.Ev.shmCreate ∈
            (UnixSharedResource.openRun ⟨a, b, c, d, e, f⟩).2 →
          UnixSharedResource.Ev.mutexLock ∈
              (UnixSharedResource.openRun ⟨a, b, c, d, e, f⟩).2
            ∧ (UnixSharedResource.openRun ⟨a, b, c, d, e, f⟩).2.indexOf
                UnixSharedResource.Ev.mutexLock <
              (UnixSharedResource.openRun ⟨a, b, c, d, e, f⟩).2.indexOf
                UnixSharedResource.Ev.shmCreate
            ∧ (UnixSharedResource.Ev.mutexUnlock ∈
                  (UnixSharedResource.openRun ⟨a, b, c, d, e, f⟩).2 →
                (UnixSharedResource.openRun ⟨a, b, c, d, e, f⟩).2.indexOf
                    UnixSharedResource.Ev.shmCreate <
                  (UnixSharedResource.openRun ⟨a, b, c, d, e, f⟩).2.indexOf
                    UnixSharedResource.Ev.mutexUnlock))
      ∧ ((UnixSharedResource.openRun ⟨a, b, c, d, e, f⟩).1 = true →
          UnixSharedResource.Ev.mutexUnlock ∈
              (UnixSharedResource.openRun ⟨a, b, c, d, e, f⟩).2
            ∧ (UnixSharedResource.openRun ⟨a, b, c, d, e, f⟩).2.indexOf
                UnixSharedResource.Ev.mutexUnlock =
              (UnixSharedResource.openRun ⟨a, b, c, d, e, f⟩).2.length - 1) := by
  decide

/-- Witness for C7: the fully successful open attempt. -/
theorem open_counter_before_lock_witness :
    UnixSharedResource.Ev.counterInc ∈
        (UnixSharedResource.openRun
          ⟨true, true, true, true, true, true⟩).2
      ∧ (UnixSharedResource.openRun
          ⟨true, true, true, true, true, true⟩).2.indexOf
          UnixSharedResource.Ev.counterInc <
        (UnixSharedResource.openRun
          ⟨true, true, true, true, true, true⟩).2.indexOf
          UnixSharedResource.Ev.mutexLock :=
  (open_counter_before_lock true true true true true true).1 (by decide)

end SharedResource
